import Mathlib

/-!
Shallow embedding of the cross-section profile construction engine of the
Michigan Geological Survey Cross-Section Tool (Scripts/MGS_XSec_Boreholes.py,
Scripts/MGS_XSec_SegmentProfile.py, Scripts/MGS_XSec_GridLines.py).

Python floats are modelled as rationals (ℚ); Python's builtin `round`
(banker's rounding, round-half-to-even) is modelled by `pyRound`; feature
tables are modelled as lists of records; arcpy calls that can raise are
modelled with `Except`/`Option`.
-/

namespace MGSXSec

/-- Python 3 builtin `round` on a rational, returning an integer:
round-half-to-even (banker's rounding).  Used by `round2int` in
MGS_XSec_GridLines.py. -/
def pyRound (q : ℚ) : ℤ :=
  let f : ℤ := ⌊q⌋
  if q - f < 1/2 then f
  else if 1/2 < q - f then f + 1
  else if f % 2 = 0 then f else f + 1

/-- MGS_XSec_GridLines.py line 62-63:
`def round2int(x,base): return base * round(x/base)`. -/
def round2int (x base : ℚ) : ℚ :=
  base * pyRound (x / base)

/-- `numpy.arange(start, stop, step)` for a positive step: the values
`start + i*step` for `0 ≤ i < ⌈(stop-start)/step⌉`. -/
def arange (start stop step : ℚ) : List ℚ :=
  (List.range (⌈(stop - start) / step⌉.toNat)).map (fun (i : ℕ) => start + (i : ℚ) * step)

/-- MGS_XSec_GridLines.py lines 276-287, the `xUnits == "Meters"` branch with
`Xmin = 0` (line 185):
`distTickMin = round2int(Xmin, xInt)`; `distTickMax = round2int(Xmax, xInt)`;
if `distTickMax > Xmax` then `newDistTickMax = distTickMax - xInt`, otherwise
`newDistTickMax = distTickMax`; the ticks are
`np.arange(distTickMin, newDistTickMax+1, xInt)`. -/
def distListMeters (xmax xInt : ℚ) : List ℚ :=
  let distTickMin := round2int 0 xInt
  let distTickMax := round2int xmax xInt
  let newDistTickMax := if xmax < distTickMax then distTickMax - xInt else distTickMax
  arange distTickMin (newDistTickMax + 1) xInt

/-- Unit setting of the project (`elevUnits` parameter). -/
inductive Units
  | Meters
  | Feet
  deriving DecidableEq, Repr

/-- The feet→meters factor 0.3048 used throughout the scripts. -/
def ftToM : ℚ := 3048 / 10000

/-- MGS_XSec_Boreholes.py lines 89-93:
`def cartesianToGeographic(angle): ctg = -90 - angle; if ctg < 0:
ctg = ctg + 360; return ctg` — falls off the end (returns `None`)
when `ctg ≥ 0`. -/
def cartesianToGeographic (angle : ℚ) : Option ℚ :=
  let ctg := -90 - angle
  if ctg < 0 then some (ctg + 360) else none

/-- A borehole stick in schematic (distance, elevation) space, as inserted by
`boreholes` in MGS_XSec_Boreholes.py: a vertical 2-vertex segment at `x` from
`top` down to `bottom`, carrying the `LocalXSEC_Azimuth` attribute. -/
structure BoreholeStick where
  x : ℚ
  top : ℚ
  bottom : ℚ
  azimuth : Option ℚ
  deriving DecidableEq, Repr

/-- MGS_XSec_Boreholes.py lines 133-173 (`boreholes`), one row:
for `elevUnits == "Meters"`: `Ytop = elev`, `Ybot = Ytop - depth`;
for `elevUnits == "Feet"`: `Ytop = elev * 0.3048`,
`Ybot = Ytop - depth * 0.3048`; the inserted vertices are `(M, Ytop*ve)` and
`(M, Ybot*ve)`, and `LocalXSEC_Azimuth` is set to
`cartesianToGeographic(LOC_ANGLE)`. -/
def mkBoreholeStick (u : Units) (m elev depth locAngle ve : ℚ) : BoreholeStick :=
  match u with
  | Units.Meters =>
      let ytop := elev
      let ybot := ytop - depth
      ⟨m, ytop * ve, ybot * ve, cartesianToGeographic locAngle⟩
  | Units.Feet =>
      let ytop := elev * ftToM
      let ybot := ytop - depth * ftToM
      ⟨m, ytop * ve, ybot * ve, cartesianToGeographic locAngle⟩

/-- The eight direction codes recognized by the QUAD update cursor
(MGS_XSec_Boreholes.py lines 378-398 and the identical blocks in
MGS_XSec_SegmentProfile.py / MGS_XSec_GridLines.py). -/
def recognizedDirections : List String :=
  ["W-E", "NW-SE", "E-W", "SW-NE", "S-N", "N-S", "NE-SW", "SE-NW"]

/-- MGS_XSec_Boreholes.py lines 378-398: the QUAD update cursor body for one
row.  The source uses four independent `if` statements over disjoint match
sets, so at most one fires; the trailing `else: pass` leaves QUAD at its
initial NULL when no code matches. -/
def assignQuad (direction : String) : Option String :=
  if direction = "W-E" ∨ direction = "NW-SE" ∨ direction = "E-W" then
    some "Northwest"
  else if direction = "SW-NE" ∨ direction = "S-N" ∨ direction = "N-S" then
    some "Southwest"
  else if direction = "NE-SW" then some "Northeast"
  else if direction = "SE-NW" then some "Southeast"
  else none

/-- MGS_XSec_Boreholes.py lines 63-65: `cpDict` of `getCPValue`; a lookup of
a key outside the four quadrant names raises `KeyError`, modelled by `none`. -/
def cpDict (quadrant : String) : Option String :=
  if quadrant = "Northwest" then some "UPPER_LEFT"
  else if quadrant = "Southwest" then some "LOWER_LEFT"
  else if quadrant = "Northeast" then some "UPPER_RIGHT"
  else if quadrant = "Southeast" then some "LOWER_RIGHT"
  else none

/-- MGS_XSec_Boreholes.py lines 400-403 for a single-row traverse line:
`cpDir` is the line's QUAD value (NULL when no direction matched), then
`cp = getCPValue(cpDir)` and `arcpy.lr.CreateRoutes(..., cp)`.  A NULL or
unmapped `cpDir` makes the `cpDict[quadrant]` lookup raise `KeyError` before
any route is built, modelled by `Except.error`. -/
def buildRouteOrigin (direction : String) : Except String String :=
  match assignQuad direction with
  | none => Except.error "KeyError"
  | some q =>
      match cpDict q with
      | none => Except.error "KeyError"
      | some cp => Except.ok cp

/-- The per-traverse-line stages of MGS_XSec_Boreholes.py /
MGS_XSec_SegmentProfile.py whose geometry-engine failures the per-line
`except` handlers catch: route/path construction (ERROR 002), bedrock surface
construction (ERROR 009), confidence-zone construction (ERROR 010). -/
inductive Stage
  | path
  | surface
  | confidence
  deriving DecidableEq, Repr

/-- One traverse line of a run: its `XSEC` identifier, and the stage at which
the geometry engine fails for it, if any. -/
structure TraverseLine where
  id : String
  failAt : Option Stage
  deriving DecidableEq, Repr

/-- The message each per-line `except` handler logs before `raise
SystemError`: MGS_XSec_Boreholes.py line 405, MGS_XSec_SegmentProfile.py
lines 269 and 310.  The ERROR 010 message names the bedrock DEM, not the
traverse line. -/
def stageErrorMsg (demName : String) (l : TraverseLine) : Stage → String
  | Stage.path => "ERROR 002: Failed to create the elevation route polyline for " ++ l.id
  | Stage.surface => "ERROR 009: Failed to create bedrock surface for " ++ l.id
  | Stage.confidence => "ERROR 010: Failed to create confidence zone for " ++ demName

/-- Result of a run over the traverse lines: the logged error messages, the
identifiers of the lines fully processed, and whether the run was aborted by
`SystemError`. -/
structure RunResult where
  logs : List String
  completed : List String
  aborted : Bool
  deriving DecidableEq, Repr

/-- The `for Value in allValue:` loop (MGS_XSec_Boreholes.py line 348,
MGS_XSec_SegmentProfile.py line 176): each per-line `try` block's `except`
handler logs its stage message and executes `raise SystemError`, which is
uncaught inside the loop, so the whole script terminates and no further
traverse line is processed. -/
def processAllLines (demName : String) : List TraverseLine → RunResult
  | [] => ⟨[], [], false⟩
  | l :: rest =>
      match l.failAt with
      | some s => ⟨[stageErrorMsg demName l s], [], true⟩
      | none =>
          let r := processAllLines demName rest
          ⟨r.logs, l.id :: r.completed, r.aborted⟩

/-- A row of the event table produced by `LocateFeaturesAlongRoutes` in
`locateEvents_Table` (MGS_XSec_Boreholes.py lines 95-110): the borehole's
`WELLID` and the `xDupDetect` scratch field added by `AddField` (line 101),
which is NULL — hence the same value — on every row. -/
structure EventRow where
  wellId : String
  dupDetect : Int
  deriving DecidableEq, Repr

/-- `arcpy.management.DeleteIdentical(table, fields)`: keeps the first record
of each set of records having identical values in `fields`, deletes the
rest. -/
def deleteIdentical (rows : List EventRow) (key : EventRow → Int) : List EventRow :=
  (rows.foldl
    (fun acc r => if (acc.2.map key).contains (key r) then acc else (acc.1 ++ [r], acc.2 ++ [r]))
    ([], [])).1

/-- MGS_XSec_Boreholes.py lines 95-110 (`locateEvents_Table`), after the
`LocateFeaturesAlongRoutes` call: the event table has one row per located
result, each carrying the NULL `xDupDetect` field (modelled as 0 for every
row); if the row count exceeds the input borehole count (and the events are
points), `DeleteIdentical(eventLocTable, dupDetectField)` runs. -/
def locateEventsTable (inputWellIds : List String) (locatedWellIds : List String) :
    List EventRow :=
  let rows := locatedWellIds.map (fun w => EventRow.mk w 0)
  if inputWellIds.length < rows.length then
    deleteIdentical rows EventRow.dupDetect
  else rows

/-- A row of the union output consumed by the confidence-classification
cursor (MGS_XSec_SegmentProfile.py lines 296-308 and 508-521): the two
`FID_*` membership flags from `Union(..., "ONLY_FID")` (−1 when the piece is
absent from that input, the single input feature's FID 1 when present) and
the CONFIDENCE attribute (NULL after `AddField`). -/
structure UnionPiece where
  fidExtent : Int
  fidBuffer : Int
  confidence : Option String
  deriving DecidableEq, Repr

/-- The body of the update cursor for one (surviving) row: the two `if`
updates of MGS_XSec_SegmentProfile.py lines 302-307. -/
def classifyPiece (p : UnionPiece) : UnionPiece :=
  let p1 := if p.fidExtent = 1 ∧ p.fidBuffer = -1 then
    UnionPiece.mk p.fidExtent p.fidBuffer (some "INFERRED") else p
  let p2 := if p1.fidExtent = 1 ∧ p1.fidBuffer = 1 then
    UnionPiece.mk p1.fidExtent p1.fidBuffer (some "CONFIDENT") else p1
  p2

/-- MGS_XSec_SegmentProfile.py lines 299-308: the update cursor over the
union output: rows with `FID_<extent> == -1` are deleted, the remaining rows
are classified by `classifyPiece`. -/
def confidenceCursor : List UnionPiece → List UnionPiece
  | [] => []
  | p :: rest =>
      if p.fidExtent = -1 then confidenceCursor rest
      else classifyPiece p :: confidenceCursor rest

/-- Origin quadrant of a traverse line (`cpDir` in the scripts). -/
inductive Quadrant
  | northwest
  | southwest
  | northeast
  | southeast
  deriving DecidableEq, Repr

/-- The X extent of a geometry (`arcpy.Describe(...).extent`), restricted to
the coordinates the moveLength computation reads. -/
structure XExtent where
  xmin : ℚ
  xmax : ℚ
  deriving DecidableEq, Repr

/-- One single-part remainder piece of the traverse line lying outside the
surface's raster-domain footprint (output of Erase + MultipartToSinglepart),
with its extent and length. -/
structure RemainderPiece where
  ext : XExtent
  len : ℚ
  deriving DecidableEq, Repr

/-- MGS_XSec_SegmentProfile.py lines 253-267 (bedrock branch): `moveLength`
accumulates `geometry.length` over the remainder pieces; for a Northwest or
Southwest origin quadrant the piece counts when the profile extent is offset
AND the piece touches the line's western end, otherwise (NE/SE) the mirrored
conditions on XMax, also conjoined with `and`. -/
def bdrkMoveLength (q : Quadrant) (profile mainLine : XExtent)
    (pieces : List RemainderPiece) : ℚ :=
  pieces.foldl
    (fun acc g =>
      if q = Quadrant.northwest ∨ q = Quadrant.southwest then
        if mainLine.xmin < profile.xmin ∧ g.ext.xmin = mainLine.xmin then acc + g.len else acc
      else
        if profile.xmax < mainLine.xmax ∧ g.ext.xmax = mainLine.xmax then acc + g.len else acc)
    0

/-- MGS_XSec_SegmentProfile.py lines 472-484 (groundwater branch): the same
accumulation, but each branch accepts a piece when EITHER condition holds
(`or` instead of `and`). -/
def gwlMoveLength (q : Quadrant) (profile mainLine : XExtent)
    (pieces : List RemainderPiece) : ℚ :=
  pieces.foldl
    (fun acc g =>
      if q = Quadrant.northwest ∨ q = Quadrant.southwest then
        if mainLine.xmin < profile.xmin ∨ g.ext.xmin = mainLine.xmin then acc + g.len else acc
      else
        if profile.xmax < mainLine.xmax ∨ g.ext.xmax = mainLine.xmax then acc + g.len else acc)
    0

/-! ## Helper lemmas -/

/-- `pyRound 0 = 0`. -/
lemma pyRound_zero : pyRound 0 = 0 := by norm_num [pyRound]

/-- `pyRound` never exceeds its argument by more than one half. -/
lemma pyRound_le (q : ℚ) : (pyRound q : ℚ) ≤ q + 1/2 := by
  have hfl : ((⌊q⌋ : ℤ) : ℚ) ≤ q := Int.floor_le q
  have hfl2 : q < (⌊q⌋ : ℚ) + 1 := Int.lt_floor_add_one q
  simp only [pyRound]
  split_ifs with h1 h2 h3
  · linarith
  · push_cast
    linarith
  · linarith
  · push_cast
    linarith

/-- `pyRound` never falls below its argument by more than one half. -/
lemma le_pyRound (q : ℚ) : q - 1/2 ≤ (pyRound q : ℚ) := by
  have hfl : ((⌊q⌋ : ℤ) : ℚ) ≤ q := Int.floor_le q
  have hfl2 : q < (⌊q⌋ : ℚ) + 1 := Int.lt_floor_add_one q
  simp only [pyRound]
  split_ifs with h1 h2 h3
  · linarith
  · push_cast
    linarith
  · linarith
  · push_cast
    linarith

/-- `round2int 0 base = 0` for any base. -/
lemma round2int_zero (base : ℚ) : round2int 0 base = 0 := by
  simp [round2int, zero_div, pyRound_zero]

/-- Concrete evaluation of the meters-branch distance tick list at
`Xmax = 1234`, `distanceInterval = 500`. -/
lemma distListMeters_eval : distListMeters 1234 500 = [0, 500, 1000] := by
  have hc : ⌈(1001:ℚ) / 500⌉ = (3:ℤ) := by
    rw [Int.ceil_eq_iff]
    norm_num
  have ht : (3:ℤ).toNat = 3 := rfl
  norm_num [distListMeters, round2int, pyRound, arange, hc, ht, List.range_succ]

/-- Comparing two conditional accumulations over the same piece list: if the
first condition implies the second and all lengths are nonnegative, the first
accumulation is bounded by the second. -/
lemma foldl_move_le (C1 C2 : RemainderPiece → Prop) [DecidablePred C1] [DecidablePred C2]
    (himp : ∀ p, C1 p → C2 p) :
    ∀ (pieces : List RemainderPiece) (a b : ℚ), a ≤ b → (∀ p ∈ pieces, 0 ≤ p.len) →
      pieces.foldl (fun acc p => if C1 p then acc + p.len else acc) a ≤
        pieces.foldl (fun acc p => if C2 p then acc + p.len else acc) b := by
  intro pieces
  induction pieces with
  | nil =>
      intro a b hab _
      simpa using hab
  | cons p rest ih =>
      intro a b hab hlen
      simp only [List.foldl_cons]
      apply ih
      · by_cases h1 : C1 p
        · rw [if_pos h1, if_pos (himp p h1)]
          exact add_le_add_right hab _
        · rw [if_neg h1]
          by_cases h2 : C2 p
          · rw [if_pos h2]
            have := hlen p (by simp)
            linarith
          · rw [if_neg h2]
            exact hab
      · intro q hq
        exact hlen q (by simp [hq])

/-! ## Claim theorems -/

/-- C7: for every traverse line whose direction attribute matches none of the
eight recognized compass codes, the QUAD update cursor leaves the quadrant
unset (`none`), and path construction fails with a `KeyError` from the
`cpDict` lookup instead of building a route from an unset origin corner. -/
theorem c7_unrecognized_direction_raises (d : String) (h : d ∉ recognizedDirections) :
    assignQuad d = none ∧ buildRouteOrigin d = Except.error "KeyError" := by
  simp only [recognizedDirections, List.mem_cons, List.not_mem_nil, or_false, not_or] at h
  obtain ⟨h1, h2, h3, h4, h5, h6, h7, h8⟩ := h
  have hq : assignQuad d = none := by
    simp [assignQuad, h1, h2, h3, h4, h5, h6, h7, h8]
  exact ⟨hq, by simp [buildRouteOrigin, hq]⟩

/-- Witness for C7 at the concrete unrecognized direction "NNW-SSE". -/
theorem c7_unrecognized_direction_raises_witness :
    assignQuad "NNW-SSE" = none ∧
      buildRouteOrigin "NNW-SSE" = Except.error "KeyError" :=
  c7_unrecognized_direction_raises "NNW-SSE" (by decide)

/-- C8: every emitted borehole stick has `top ≥ bottom` whenever the borehole
depth is nonnegative and the vertical exaggeration is positive, in both unit
settings. -/
theorem c8_stick_top_ge_bottom (u : Units) (m elev depth locAngle ve : ℚ)
    (hd : 0 ≤ depth) (hv : 0 < ve) :
    (mkBoreholeStick u m elev depth locAngle ve).bottom ≤
      (mkBoreholeStick u m elev depth locAngle ve).top := by
  have hc : (0:ℚ) ≤ ftToM := by norm_num [ftToM]
  cases u with
  | Meters =>
      simp only [mkBoreholeStick]
      nlinarith [mul_nonneg hd hv.le]
  | Feet =>
      simp only [mkBoreholeStick]
      nlinarith [mul_nonneg (mul_nonneg hd hc) hv.le]

/-- Witness for C8 at `elevUnits = Feet`, surface elevation 500 ft, depth
100 ft, vertical exaggeration 1. -/
theorem c8_stick_top_ge_bottom_witness :
    (mkBoreholeStick Units.Feet 0 500 100 0 1).bottom ≤
      (mkBoreholeStick Units.Feet 0 500 100 0 1).top :=
  c8_stick_top_ge_bottom Units.Feet 0 500 100 0 1 (by norm_num) (by norm_num)

/-- C5: over union pieces whose two membership flags each take the
single-feature values 1 (present) or −1 (absent), the confidence cursor
deletes exactly the pieces absent from the extent footprint and classifies
every surviving piece as CONFIDENT when it is also inside the borehole
buffer and as INFERRED otherwise — no piece receives any other
classification. -/
theorem c5_confidence_classification (pieces : List UnionPiece)
    (hext : ∀ p ∈ pieces, p.fidExtent = 1 ∨ p.fidExtent = -1)
    (hbuf : ∀ p ∈ pieces, p.fidBuffer = 1 ∨ p.fidBuffer = -1) :
    confidenceCursor pieces =
      (pieces.filter (fun p => p.fidExtent == 1)).map
        (fun p => UnionPiece.mk p.fidExtent p.fidBuffer
          (some (if p.fidBuffer = 1 then "CONFIDENT" else "INFERRED"))) := by
  induction pieces with
  | nil => simp [confidenceCursor]
  | cons p rest ih =>
      have hpe := hext p (by simp)
      have hpb := hbuf p (by simp)
      have ih2 := ih (fun q hq => hext q (by simp [hq])) (fun q hq => hbuf q (by simp [hq]))
      rcases hpe with h1 | h1
      · rcases hpb with h2 | h2
        · simp [confidenceCursor, classifyPiece, h1, h2, ih2, List.filter_cons]
        · simp [confidenceCursor, classifyPiece, h1, h2, ih2, List.filter_cons]
      · simp [confidenceCursor, h1, ih2, List.filter_cons]

/-- Witness for C5 on a concrete three-piece union: one piece in both inputs,
one only in the extent footprint, one only in the buffer. -/
theorem c5_confidence_classification_witness :
    confidenceCursor
        [UnionPiece.mk 1 1 none, UnionPiece.mk 1 (-1) none, UnionPiece.mk (-1) 1 none] =
      [UnionPiece.mk 1 1 (some "CONFIDENT"), UnionPiece.mk 1 (-1) (some "INFERRED")] := by
  have h := c5_confidence_classification
    [UnionPiece.mk 1 1 none, UnionPiece.mk 1 (-1) none, UnionPiece.mk (-1) 1 none]
    (by decide) (by decide)
  rw [h]
  decide

/-- C1 counterexample: in a two-line run where the first line's path
construction fails, the run is aborted by `SystemError` with the ERROR 002
message, and the second traverse line is never processed — the claim that
processing proceeds to the next traverse line is false. -/
theorem c1_counterexample :
    (processAllLines "bedrock_dem"
        [TraverseLine.mk "A" (some Stage.path), TraverseLine.mk "B" none]).aborted = true ∧
    (processAllLines "bedrock_dem"
        [TraverseLine.mk "A" (some Stage.path), TraverseLine.mk "B" none]).completed = [] ∧
    (processAllLines "bedrock_dem"
        [TraverseLine.mk "A" (some Stage.path), TraverseLine.mk "B" none]).logs =
      ["ERROR 002: Failed to create the elevation route polyline for A"] := by
  decide

/-- C1 (amended): a geometry-engine failure at any per-line stage logs that
stage's error message (which names the traverse line for the path and
surface stages) and then terminates the entire run via `SystemError`: lines
before the failing one are completed, the failing line and every later line
are not. -/
theorem c1_perLineFailure_aborts_whole_run (demName : String)
    (pre : List TraverseLine) (l : TraverseLine) (rest : List TraverseLine)
    (s : Stage) (hpre : ∀ p ∈ pre, p.failAt = none) (hl : l.failAt = some s) :
    processAllLines demName (pre ++ l :: rest) =
      RunResult.mk [stageErrorMsg demName l s] (pre.map TraverseLine.id) true := by
  induction pre with
  | nil => simp [processAllLines, hl]
  | cons p ps ih =>
      have hp := hpre p (by simp)
      have ih2 := ih (fun q hq => hpre q (by simp [hq]))
      simp [processAllLines, hp, ih2]

/-- Witness for C1's amended statement: one completed line "A", a bedrock
surface failure on "B", and an unreached line "C". -/
theorem c1_perLineFailure_aborts_whole_run_witness :
    processAllLines "bedrock_dem"
        [TraverseLine.mk "A" none, TraverseLine.mk "B" (some Stage.surface),
          TraverseLine.mk "C" none] =
      RunResult.mk
        [stageErrorMsg "bedrock_dem" (TraverseLine.mk "B" (some Stage.surface)) Stage.surface]
        ["A"] true :=
  c1_perLineFailure_aborts_whole_run "bedrock_dem"
    [TraverseLine.mk "A" none] (TraverseLine.mk "B" (some Stage.surface))
    [TraverseLine.mk "C" none] Stage.surface (by decide) (by decide)

/-- C2 (code bug): with two distinct input boreholes A and B where A is
located twice, the located-row count 3 exceeds the input count 2, so
`DeleteIdentical` runs on the `xDupDetect` field — which is NULL (identical)
on every row — and keeps only the first row of the whole table: borehole B's
projection is deleted, instead of one ProjectedBorehole per input borehole
surviving. -/
theorem c2_dedup_drops_distinct_borehole :
    locateEventsTable ["A", "B"] ["A", "A", "B"] = [EventRow.mk "A" 0] ∧
    "B" ∉ (locateEventsTable ["A", "B"] ["A", "A", "B"]).map EventRow.wellId := by
  decide

/-- C3 counterexample: with `elevUnits = Feet`, surfaceElevation 500, depth
100 and vertical exaggeration 1, the emitted stick's schematic top is
500 × 0.3048 = 152.4 — not 500 — and its bottom is 400 × 0.3048 = 121.92,
not 400: the code converts feet to meters before drawing. -/
theorem c3_counterexample :
    (mkBoreholeStick Units.Feet 0 500 100 0 1).top = 762/5 ∧
    (mkBoreholeStick Units.Feet 0 500 100 0 1).top ≠ 500 ∧
    (mkBoreholeStick Units.Feet 0 500 100 0 1).bottom = 3048/25 ∧
    (mkBoreholeStick Units.Feet 0 500 100 0 1).bottom ≠ 400 := by
  norm_num [mkBoreholeStick, ftToM]

/-- C3 (amended): for `elevUnits = Feet` the schematic top and bottom are the
foot-to-meter-converted, exaggerated surface elevation and (surface
elevation − depth): in the example above top = 152.4 and bottom = 121.92; for
`elevUnits = Meters` no foot-conversion is applied. -/
theorem c3_stick_schematic_values :
    ((mkBoreholeStick Units.Feet 0 500 100 0 1).top = 762/5 ∧
      (mkBoreholeStick Units.Feet 0 500 100 0 1).bottom = 3048/25) ∧
    (∀ m elev depth locAngle ve : ℚ,
      (mkBoreholeStick Units.Feet m elev depth locAngle ve).top = elev * ftToM * ve ∧
      (mkBoreholeStick Units.Feet m elev depth locAngle ve).bottom =
        (elev - depth) * ftToM * ve ∧
      (mkBoreholeStick Units.Meters m elev depth locAngle ve).top = elev * ve ∧
      (mkBoreholeStick Units.Meters m elev depth locAngle ve).bottom = (elev - depth) * ve) := by
  constructor
  · constructor <;> norm_num [mkBoreholeStick, ftToM]
  · intro m elev depth locAngle ve
    refine ⟨by simp [mkBoreholeStick], ?_, by simp [mkBoreholeStick], by simp [mkBoreholeStick]⟩
    simp only [mkBoreholeStick]
    ring

/-- C6 counterexample: `round2int` uses Python's round-half-to-even, so
rounding 25 with base 50 yields 0, not the claimed 50, and rounding −25 with
base 50 also yields 0, not the claimed −50. -/
theorem c6_counterexample :
    round2int 25 50 = 0 ∧ round2int 25 50 ≠ 50 ∧
    round2int (-25) 50 = 0 ∧ round2int (-25) 50 ≠ -50 := by
  norm_num [round2int, pyRound]

/-- C6 (amended): at an exact halfway point `x / base = k + 1/2` with
positive base, `round2int x base = base * round(x/base)` resolves the tie to
the even quotient — `base * k` when `k` is even, `base * (k+1)` when `k` is
odd (round-half-to-even, not round-half-away-from-zero). -/
theorem c6_round_half_to_even (x base : ℚ) (k : ℤ) (hbase : 0 < base)
    (hhalf : x / base = k + 1/2) :
    round2int x base = if k % 2 = 0 then base * k else base * (k + 1) := by
  have hfloor : ⌊x / base⌋ = k := by
    rw [hhalf, add_comm, Int.floor_add_int]
    norm_num
  have hr : x / base - (k : ℚ) = 1/2 := by
    rw [hhalf]
    ring
  simp only [round2int, pyRound, hfloor, hr]
  rw [if_neg (by norm_num), if_neg (by norm_num)]
  by_cases hk : k % 2 = 0
  · rw [if_pos hk, if_pos hk]
  · rw [if_neg hk, if_neg hk]
    push_cast
    ring

/-- Witness for C6's amended statement at x = 25, base = 50, k = 0: the tie
resolves to 0 (the even multiple). -/
theorem c6_round_half_to_even_witness : round2int 25 50 = 0 := by
  have h := c6_round_half_to_even 25 50 0 (by norm_num) (by norm_num)
  simpa using h

/-- C9 counterexample: with a Northwest origin quadrant, a profile extent
offset from the line's western end (10 > 0) and one remainder piece of
length 7 that does not touch the western end, the bedrock branch (AND)
accumulates 0 while the groundwater branch (OR) accumulates 7 — the two
moveLength computations are not equivalent. -/
theorem c9_counterexample :
    bdrkMoveLength Quadrant.northwest (XExtent.mk 10 100) (XExtent.mk 0 100)
        [RemainderPiece.mk (XExtent.mk 5 50) 7] = 0 ∧
    gwlMoveLength Quadrant.northwest (XExtent.mk 10 100) (XExtent.mk 0 100)
        [RemainderPiece.mk (XExtent.mk 5 50) 7] = 7 ∧
    bdrkMoveLength Quadrant.northwest (XExtent.mk 10 100) (XExtent.mk 0 100)
        [RemainderPiece.mk (XExtent.mk 5 50) 7] ≠
      gwlMoveLength Quadrant.northwest (XExtent.mk 10 100) (XExtent.mk 0 100)
        [RemainderPiece.mk (XExtent.mk 5 50) 7] := by
  norm_num [bdrkMoveLength, gwlMoveLength]

/-- C9 (amended): the two branches are not equivalent; since the bedrock
branch's AND-condition implies the groundwater branch's OR-condition, with
nonnegative piece lengths the groundwater branch accumulates at least as
much horizontal offset as the bedrock branch on the same inputs. -/
theorem c9_moveLength_comparison (q : Quadrant) (profile mainLine : XExtent)
    (pieces : List RemainderPiece) (hlen : ∀ p ∈ pieces, 0 ≤ p.len) :
    bdrkMoveLength q profile mainLine pieces ≤ gwlMoveLength q profile mainLine pieces := by
  by_cases hq : q = Quadrant.northwest ∨ q = Quadrant.southwest
  · simp only [bdrkMoveLength, gwlMoveLength, if_pos hq]
    exact foldl_move_le
      (fun p => mainLine.xmin < profile.xmin ∧ p.ext.xmin = mainLine.xmin)
      (fun p => mainLine.xmin < profile.xmin ∨ p.ext.xmin = mainLine.xmin)
      (fun p h => Or.inl h.1) pieces 0 0 le_rfl hlen
  · simp only [bdrkMoveLength, gwlMoveLength, if_neg hq]
    exact foldl_move_le
      (fun p => profile.xmax < mainLine.xmax ∧ p.ext.xmax = mainLine.xmax)
      (fun p => profile.xmax < mainLine.xmax ∨ p.ext.xmax = mainLine.xmax)
      (fun p h => Or.inl h.1) pieces 0 0 le_rfl hlen

/-- Witness for C9's amended statement on the counterexample input. -/
theorem c9_moveLength_comparison_witness :
    bdrkMoveLength Quadrant.northwest (XExtent.mk 10 100) (XExtent.mk 0 100)
        [RemainderPiece.mk (XExtent.mk 5 50) 7] ≤
      gwlMoveLength Quadrant.northwest (XExtent.mk 10 100) (XExtent.mk 0 100)
        [RemainderPiece.mk (XExtent.mk 5 50) 7] :=
  c9_moveLength_comparison Quadrant.northwest (XExtent.mk 10 100) (XExtent.mk 0 100)
    [RemainderPiece.mk (XExtent.mk 5 50) 7]
    (by intro p hp; rw [List.mem_singleton] at hp; rw [hp]; norm_num)

/-- C10 counterexample: for angle 280 (so −90 − angle = −370 < 0) the
function returns −10, a numeric value that does not lie in [0, 360): the
claimed range is wrong for angles above 270. -/
theorem c10_counterexample :
    cartesianToGeographic 280 = some (-10) ∧ ¬ (0 ≤ (-10:ℚ)) := by
  norm_num [cartesianToGeographic]

/-- C10 (amended): `cartesianToGeographic` returns a value iff the angle
exceeds −90 (otherwise `None`); the returned value always equals
−90 − angle + 360 = 270 − angle, and it lies in [0, 360) exactly when the
angle additionally is at most 270; the result is stored unchanged as the
stick's LocalXSEC_Azimuth attribute. -/
theorem c10_azimuth_conversion (angle : ℚ) :
    ((cartesianToGeographic angle).isSome ↔ -90 < angle) ∧
    (∀ v, cartesianToGeographic angle = some v → v = 270 - angle) ∧
    (-90 < angle → angle ≤ 270 →
      cartesianToGeographic angle = some (270 - angle) ∧
        0 ≤ 270 - angle ∧ 270 - angle < 360) ∧
    (∀ u m elev depth ve,
      (mkBoreholeStick u m elev depth angle ve).azimuth = cartesianToGeographic angle) := by
  have hiff : -90 - angle < 0 ↔ -90 < angle := by constructor <;> intro <;> linarith
  refine ⟨?_, ?_, ?_, ?_⟩
  · by_cases h : -90 - angle < 0
    · simp [cartesianToGeographic, h, hiff.mp h]
    · simp only [cartesianToGeographic, if_neg h]
      simpa using fun hc => h (hiff.mpr hc)
  · intro v hv
    simp only [cartesianToGeographic] at hv
    by_cases h : -90 - angle < 0
    · rw [if_pos h] at hv
      have h2 := Option.some.inj hv
      linarith
    · rw [if_neg h] at hv
      exact absurd hv (by simp)
  · intro h1 h2
    have h : -90 - angle < 0 := hiff.mpr h1
    refine ⟨?_, by linarith, by linarith⟩
    simp only [cartesianToGeographic, if_pos h, Option.some.injEq]
    ring
  · intro u m elev depth ve
    cases u <;> simp [mkBoreholeStick]

/-- Witness for C10's amended statement at angle 100: the conversion returns
170, which lies in [0, 360). -/
theorem c10_azimuth_conversion_witness :
    cartesianToGeographic 100 = some (270 - 100) ∧
      0 ≤ (270:ℚ) - 100 ∧ (270:ℚ) - 100 < 360 :=
  (c10_azimuth_conversion 100).2.2.1 (by norm_num) (by norm_num)

/-- Every tick produced by the meters-branch distance tick computation is at
most the path length, provided the tick interval is at least 1 (the slack in
`np.arange(distTickMin, newDistTickMax+1, xInt)` is one schematic unit). -/
lemma distListMeters_mem_le (xmax xInt : ℚ) (hi : 1 ≤ xInt) :
    ∀ t ∈ distListMeters xmax xInt, t ≤ xmax := by
  intro t ht
  have hipos : (0:ℚ) < xInt := lt_of_lt_of_le one_pos hi
  simp only [distListMeters, round2int, zero_div, pyRound_zero, Int.cast_zero, mul_zero] at ht
  set m : ℤ := pyRound (xmax / xInt) with hm
  have hub : (m : ℚ) ≤ xmax / xInt + 1/2 := pyRound_le _
  have hmul : xInt * (m : ℚ) ≤ xmax + xInt/2 := by
    have h2 : xInt * (m : ℚ) ≤ xInt * (xmax / xInt + 1/2) :=
      mul_le_mul_of_nonneg_left hub hipos.le
    have h3 : xInt * (xmax / xInt + 1/2) = xmax + xInt/2 := by
      field_simp
      ring
    linarith
  obtain ⟨k, hk1, hk2⟩ : ∃ k : ℤ,
      (if xmax < xInt * (m : ℚ) then xInt * (m : ℚ) - xInt else xInt * (m : ℚ)) =
        xInt * (k : ℚ) ∧ xInt * (k : ℚ) ≤ xmax := by
    by_cases hcase : xmax < xInt * (m : ℚ)
    · refine ⟨m - 1, ?_, ?_⟩
      · rw [if_pos hcase]
        push_cast
        ring
      · push_cast
        linarith
    · exact ⟨m, by rw [if_neg hcase], le_of_not_lt hcase⟩
  rw [hk1] at ht
  simp only [arange] at ht
  obtain ⟨i, hmem, hti⟩ := List.mem_map.mp ht
  have hilt : i < (⌈(xInt * (k : ℚ) + 1 - 0) / xInt⌉).toNat := List.mem_range.mp hmem
  have hi2 : (i : ℤ) < ⌈(xInt * (k : ℚ) + 1 - 0) / xInt⌉ := Int.lt_toNat.mp hilt
  have hi3 : (i : ℚ) < (xInt * (k : ℚ) + 1 - 0) / xInt := by
    have hceil : ((⌈(xInt * (k : ℚ) + 1 - 0) / xInt⌉ : ℤ) : ℚ) <
        (xInt * (k : ℚ) + 1 - 0) / xInt + 1 := Int.ceil_lt_add_one _
    have h4 : (i : ℤ) + 1 ≤ ⌈(xInt * (k : ℚ) + 1 - 0) / xInt⌉ := hi2
    have h5 : ((i : ℚ)) + 1 ≤ ((⌈(xInt * (k : ℚ) + 1 - 0) / xInt⌉ : ℤ) : ℚ) := by
      exact_mod_cast h4
    linarith
  have hprod : (i : ℚ) * xInt < xInt * (k : ℚ) + 1 := by
    have h6 := (lt_div_iff₀ hipos).mp hi3
    linarith
  have hik : (i : ℤ) ≤ k := by
    by_contra hcon
    push_neg at hcon
    have h7 : (k : ℚ) + 1 ≤ (i : ℚ) := by exact_mod_cast hcon
    have h8 : ((k : ℚ) + 1) * xInt ≤ (i : ℚ) * xInt := mul_le_mul_of_nonneg_right h7 hipos.le
    nlinarith
  have hfin : (i : ℚ) * xInt ≤ xInt * (k : ℚ) := by
    have h9 : (i : ℚ) ≤ (k : ℚ) := by exact_mod_cast hik
    nlinarith
  rw [← hti]
  calc 0 + (i : ℚ) * xInt = (i : ℚ) * xInt := by ring
    _ ≤ xInt * (k : ℚ) := hfin
    _ ≤ xmax := hk2

/-- C4 counterexample: for Xmax = 1234 m and distanceInterval = 500 m the
generated ticks are [0, 500, 1000] — not the claimed [0, 500, 1000, 1500] —
and the last generated tick 1000 is strictly below Xmax, contradicting
"last generated distance tick ≥ Xmax". -/
theorem c4_counterexample :
    distListMeters 1234 500 = [0, 500, 1000] ∧
    distListMeters 1234 500 ≠ [0, 500, 1000, 1500] ∧
    (distListMeters 1234 500).getLast? = some 1000 ∧ ¬ ((1234:ℚ) ≤ 1000) := by
  refine ⟨distListMeters_eval, ?_, ?_, by norm_num⟩
  · rw [distListMeters_eval]
    simp
  · rw [distListMeters_eval]
    rfl

/-- C4 (amended): distance tick generation rounds inward, not outward: for
Xmax = 1234 m and distanceInterval = 500 m the ticks are exactly
[0, 500, 1000], and for every path length and every distance interval of at
least one meter, every generated tick — in particular the last — is less
than or equal to Xmax. -/
theorem c4_distTicks_round_inward :
    distListMeters 1234 500 = [0, 500, 1000] ∧
    ∀ xmax xInt : ℚ, 1 ≤ xInt → ∀ t ∈ distListMeters xmax xInt, t ≤ xmax :=
  ⟨distListMeters_eval, fun xmax xInt hi => distListMeters_mem_le xmax xInt hi⟩

/-- Witness for C4's amended statement: the tick 1000 generated for
Xmax = 1234, interval 500 is at most 1234. -/
theorem c4_distTicks_round_inward_witness : (1000:ℚ) ≤ 1234 :=
  c4_distTicks_round_inward.2 1234 500 (by norm_num) 1000
    (by rw [distListMeters_eval]; simp)

end MGSXSec
